import Mathlib

/-!
Verification of the EdgeAI migration-strategies simulator core.

The definitions below are a shallow embedding of the Python sources under
app/: floats are modelled as rationals, Python round(x, 2) as rounding of
x * 100 to the nearest integer, dictionaries keyed by device id as functions
from device ids, and mutation as explicit state passing.  The theorems at the
end of the file settle the specification claims against these definitions.
-/

/-- Embedding of Python round(x, 2): round to two decimal places. -/
def round2 (q : ℚ) : ℚ := (round (q * 100) : ℤ) / 100

/-!
## Battery (app/energy_harvesting/harvester_battery.py)

HarvesterBattery stores a per-device state of charge dictionary bsoc,
 a shared maximum capacity, a minimum state of charge (depth-of-discharge
floor) and a charging efficiency.  All operations are keyed by device id and
touch only the slot of that id.
-/

structure HarvesterBattery where
  max_capacity_wh : ℚ
  min_bsoc : ℚ
  efficiency : ℚ
  bsoc : ℕ → ℚ

/-- HarvesterBattery.__init__: max capacity, floor and initial charge, all
rounded to two decimal places as in the source. -/
def HarvesterBattery.init (ampere volts efficiency initial_charge depth_of_discharge : ℚ) :
    HarvesterBattery :=
  let max_capacity_wh := round2 (ampere * volts)
  { max_capacity_wh := max_capacity_wh
    min_bsoc := round2 (max_capacity_wh * depth_of_discharge)
    efficiency := efficiency
    bsoc := fun _ => round2 (max_capacity_wh * initial_charge) }

/-- HarvesterBattery.get_bsoc: the reported state of charge, rounded. -/
def get_bsoc (h : HarvesterBattery) (device_id : ℕ) : ℚ := round2 (h.bsoc device_id)

/-- HarvesterBattery.get_max_capacity. -/
def get_max_capacity (h : HarvesterBattery) : ℚ := round2 h.max_capacity_wh

/-- HarvesterBattery.get_min_bsoc. -/
def get_min_bsoc (h : HarvesterBattery) : ℚ := round2 h.min_bsoc

/-- HarvesterBattery.charge_battery: harvested power is the larger of the
(rounded) solar and wind readings; the added energy is converted to Wh,
rounded, scaled by the efficiency, rounded again, and the slot is charged up
to the maximum capacity. -/
def charge_battery (h : HarvesterBattery) (device_id : ℕ) (solar wind : ℚ) :
    HarvesterBattery :=
  let harvested_power := max (round2 solar) (round2 wind)
  let energy_added_wh := round2 (harvested_power * 1 / 3600)
  let energy_added_eff := round2 (energy_added_wh * h.efficiency)
  { h with bsoc := fun i =>
      if i = device_id then
        min (h.bsoc device_id + energy_added_eff) h.max_capacity_wh
      else h.bsoc i }

/-- HarvesterBattery.consume_energy: convert the required power to Wh
(rounded); if the slot is at least the floor, subtract and report success
exactly when the post-subtraction value is still at least the floor;
otherwise leave the slot untouched and report failure. -/
def consume_energy (h : HarvesterBattery) (device_id : ℕ) (required_power_w : ℚ) :
    HarvesterBattery × Bool :=
  let required_energy_wh := round2 (required_power_w * 1 / 3600)
  if h.bsoc device_id ≥ h.min_bsoc then
    let new_bsoc := h.bsoc device_id - required_energy_wh
    let h1 : HarvesterBattery :=
      { h with bsoc := fun i => if i = device_id then new_bsoc else h.bsoc i }
    if new_bsoc < h.min_bsoc then (h1, false) else (h1, true)
  else (h, false)

/-- One battery interaction during a tick: either a charge with the solar and
wind readings of the tick, or a consumption of a required power draw. -/
inductive BatteryOp where
  | charge (device_id : ℕ) (solar wind : ℚ)
  | consume (device_id : ℕ) (required_power_w : ℚ)

/-- Run a sequence of charge_battery / consume_energy calls. -/
def run_battery (h : HarvesterBattery) (ops : List BatteryOp) : HarvesterBattery :=
  ops.foldl
    (fun st op =>
      match op with
      | .charge i s w => charge_battery st i s w
      | .consume i p => (consume_energy st i p).1)
    h

/-!
## Services (app/runnables/ai_model.py and the service records moved by
transfers)
-/

structure Service where
  id : ℕ
  server_id : ℕ
  trained : Bool
  actual_training_time : ℕ
  max_training_time : ℕ
deriving DecidableEq

/-- AIModel.train_model: an already trained service is untouched; a service
whose counter equals max_training_time is marked trained with the counter
reset; otherwise the counter is incremented. -/
def train_model (s : Service) : Service :=
  if s.trained then s
  else if s.actual_training_time = s.max_training_time then
    { s with trained := true, actual_training_time := 0 }
  else
    { s with actual_training_time := s.actual_training_time + 1 }

/-!
## Devices (app/devices/base_device.py)

The transfer_model dictionary of a device and the device record itself.
Status is flattened into the state and active fields.
-/

structure TransferModel where
  transfer : Bool
  transfer_duration : ℕ
  transfer_time : ℕ
  transfer_to_device_id : ℕ
  transfer_from_device_id : ℕ
  transfer_service_ids : List ℕ
  transfer_failed : ℕ
  transfer_succeded : ℕ
deriving DecidableEq

structure EdgeDevice where
  id : ℕ
  model_type : String
  state : String
  active : Bool
  actual_power : ℚ
  power_source : String
  cpu_cores : ℤ
  reserved_cpu_cores : ℤ
  services : List Service
  transfer_model : TransferModel
deriving DecidableEq

/-- The central server as seen by the proactive transfer code: its service
roster and its transfer_model record (holding the download-side counters). -/
structure Server where
  id : ℕ
  services : List Service
  transfer_model : TransferModel
deriving DecidableEq

/-- BaseDevice._modify_state_without_battery. -/
def modify_state_without_battery (d : EdgeDevice) (min_power_required : ℚ) : EdgeDevice :=
  if d.actual_power > min_power_required then
    { d with state := "on", active := true }
  else if 0 < d.actual_power ∧ d.actual_power ≤ min_power_required then
    { d with state := "critical", active := true }
  else
    { d with state := "off", active := false }

/-- BaseDevice._modify_state_with_battery: note that when the power is
positive but the reported state of charge matches neither band, no branch
fires and the device record is returned unchanged. -/
def modify_state_with_battery (d : EdgeDevice) (h : HarvesterBattery) : EdgeDevice :=
  if d.actual_power > 0 then
    if get_bsoc h d.id ≥ get_max_capacity h * (2 / 5) then
      { d with state := "on", active := true }
    else if get_min_bsoc h ≤ get_bsoc h d.id ∧ get_bsoc h d.id < get_max_capacity h * (2 / 5) then
      { d with state := "critical", active := true }
    else d
  else
    { d with state := "off", active := false }

/-- BaseDevice._modify_power_with_battery: charge first, then consume the
required power; the device gets the required power on success and 0
otherwise, with power_source set to battery. -/
def modify_power_with_battery (d : EdgeDevice) (h : HarvesterBattery) (solar wind : ℚ)
    (required_power : ℚ) : EdgeDevice × HarvesterBattery :=
  let h1 := charge_battery h d.id solar wind
  let r := consume_energy h1 d.id required_power
  ({ d with
      actual_power := if r.2 then required_power else 0
      power_source := "battery" },
   r.1)

/-!
## Transfer primitives (app/devices/base_device.py)
-/

/-- BaseDevice.update_transfer_duration: increment the duration and report
whether the transfer time has been reached. -/
def update_transfer_duration (d : EdgeDevice) : EdgeDevice × Bool :=
  let d1 := { d with transfer_model :=
    { d.transfer_model with transfer_duration := d.transfer_model.transfer_duration + 1 } }
  (d1, d1.transfer_model.transfer_duration ≥ d1.transfer_model.transfer_time)

/-- BaseDevice.reset_transfer_state. -/
def reset_transfer_state (d : EdgeDevice) : EdgeDevice :=
  { d with transfer_model :=
    { d.transfer_model with transfer := false, transfer_duration := 0 } }

/-- BaseDevice.start_transfer. -/
def start_transfer (d : EdgeDevice) : EdgeDevice :=
  { d with transfer_model :=
    { d.transfer_model with transfer := true, transfer_duration := 0 } }

/-- BaseDevice.assign_transfer_id_to_edge_device: record the server as the
source of a download. -/
def assign_transfer_id_to_edge_device (d : EdgeDevice) (srv : Server) : EdgeDevice :=
  { d with transfer_model :=
    { d.transfer_model with transfer_from_device_id := srv.id } }

/-- BaseDevice.assign_transfer_id_to_server: record the server as the target
of an upload. -/
def assign_transfer_id_to_server (d : EdgeDevice) (srv : Server) : EdgeDevice :=
  { d with transfer_model :=
    { d.transfer_model with transfer_to_device_id := srv.id } }

/-- BaseDevice.reset_transfer_id_to_server. -/
def reset_transfer_id_to_server (d : EdgeDevice) : EdgeDevice :=
  { d with transfer_model :=
    { d.transfer_model with transfer_to_device_id := 0 } }

/-- BaseDevice.reset_transfer_id_to_edge_device. -/
def reset_transfer_id_to_edge_device (d : EdgeDevice) : EdgeDevice :=
  { d with transfer_model :=
    { d.transfer_model with transfer_from_device_id := 0 } }

/-- BaseDevice.transfer_failed: a transfer whose duration has already reached
the transfer time is not failed; otherwise it is failed exactly when the
device currently has no power. -/
def transfer_failed (d : EdgeDevice) : Bool :=
  if d.transfer_model.transfer_duration ≥ d.transfer_model.transfer_time then false
  else if d.actual_power = 0 then true
  else false

/-!
## Proactive decision helpers (app/devices/proactive_device.py)
-/

/-- The harvester as seen by the proactive decision functions: either a plain
energy harvester or a battery-backed one. -/
inductive Harvester where
  | plain : Harvester
  | battery (hb : HarvesterBattery) : Harvester

/-- ProactiveDevice._get_low_power: true when the current power is below the
threshold. -/
def get_low_power (d : EdgeDevice) (min_power_required : ℚ) : Bool :=
  !(d.actual_power ≥ min_power_required)

/-- ProactiveDevice._get_low_battery_power: true unless the reported state of
charge reaches both the (rounded) threshold in Wh and the 40 percent band. -/
def get_low_battery_power (d : EdgeDevice) (min_power_required : ℚ)
    (h : HarvesterBattery) : Bool :=
  let bsoc := get_bsoc h d.id
  let min_power_required_wh := round2 (min_power_required * (1 / 3600))
  !(bsoc ≥ min_power_required_wh ∧ bsoc > get_max_capacity h * (2 / 5))

/-- ProactiveDevice._get_high_power: true when the current power reaches the
threshold. -/
def get_high_power (d : EdgeDevice) (min_power_required : ℚ) : Bool :=
  d.actual_power ≥ min_power_required

/-- ProactiveDevice._get_high_battery_power: true when the reported state of
charge reaches the (unrounded) threshold in Wh and the 40 percent band. -/
def get_high_battery_power (d : EdgeDevice) (h : HarvesterBattery)
    (min_power_required : ℚ) : Bool :=
  let bsoc := get_bsoc h d.id
  let min_power_required_wh := min_power_required * (1 / 3600)
  bsoc ≥ min_power_required_wh ∧ bsoc > get_max_capacity h * (2 / 5)

/-!
## Proactive model transfers (app/devices/proactive_device.py)
-/

/-- ProactiveDevice._transfer_model_to_server: skip while a transfer is in
flight; otherwise, on a low-power trigger, pin the service ids of every
hosted service, start the transfer and record the server as the upload
target.  Both exits return false, as the source does. -/
def transfer_model_to_server (d : EdgeDevice) (srv : Server)
    (min_power_required : ℚ) (h : Harvester) : EdgeDevice × Bool :=
  if d.transfer_model.transfer then (d, false)
  else
    let transfer_initiate :=
      match h with
      | .battery hb => get_low_battery_power d min_power_required hb
      | .plain => get_low_power d min_power_required
    if transfer_initiate then
      let services_to_transfer := d.services.map (fun s => s.id)
      let d1 := { d with transfer_model :=
        { d.transfer_model with transfer_service_ids := services_to_transfer } }
      let d2 := start_transfer d1
      let d3 := assign_transfer_id_to_server d2 srv
      (d3, false)
    else (d, false)

/-- ProactiveDevice._transfer_model_to_edge_device: skip while a transfer is
in flight; otherwise, on a high-power trigger, pin the offered service ids,
start the transfer and record the server as the download source.  Both exits
return false, as the source does. -/
def transfer_model_to_edge_device (srv : Server) (d : EdgeDevice) (h : Harvester)
    (services : List Service) (min_power_required : ℚ) : EdgeDevice × Bool :=
  if d.transfer_model.transfer then (d, false)
  else
    let transfer_initiate :=
      match h with
      | .battery hb => get_high_battery_power d hb min_power_required
      | .plain => get_high_power d min_power_required
    if transfer_initiate then
      let d1 := { d with transfer_model :=
        { d.transfer_model with transfer_service_ids := services.map (fun s => s.id) } }
      let d2 := start_transfer d1
      let d3 := assign_transfer_id_to_edge_device d2 srv
      (d3, false)
    else (d, false)

/-- ProactiveDevice._update_ongoing_transfers_to_server: on failure, reset
the state, the upload slot and the pinned ids and bump the device-side failed
counter; on completion, move the pinned services to the server, reset and
bump the device-side succeded counter; otherwise only the duration advanced. -/
def update_ongoing_transfers_to_server (d : EdgeDevice) (srv : Server) :
    EdgeDevice × Server :=
  if transfer_failed d then
    let d1 := reset_transfer_state d
    let d2 := reset_transfer_id_to_server d1
    let d3 := { d2 with transfer_model :=
      { d2.transfer_model with
          transfer_service_ids := []
          transfer_failed := d2.transfer_model.transfer_failed + 1 } }
    (d3, srv)
  else
    let r := update_transfer_duration d
    if r.2 then
      let d1 := r.1
      let service_ids := d1.transfer_model.transfer_service_ids
      let services_to_assign := d1.services.filter (fun s => s.id ∈ service_ids)
      let srv1 := { srv with
        services := srv.services ++ services_to_assign.map (fun s => { s with server_id := srv.id }) }
      let d2 := { d1 with services := d1.services.filter (fun s => s.id ∉ service_ids) }
      let d3 := reset_transfer_state d2
      let d4 := reset_transfer_id_to_server d3
      let d5 := { d4 with transfer_model :=
        { d4.transfer_model with
            transfer_service_ids := []
            transfer_succeded := d4.transfer_model.transfer_succeded + 1 } }
      (d5, srv1)
    else (r.1, srv)

/-- ProactiveDevice._update_ongoing_transfers_to_device: on failure, reset
the state, the download slot and the pinned ids and bump the server-side
failed counter; on completion, move the pinned services from the server to
the device, reset and bump the server-side succeded counter. -/
def update_ongoing_transfers_to_device (d : EdgeDevice) (srv : Server) :
    EdgeDevice × Server :=
  if transfer_failed d then
    let d1 := reset_transfer_state d
    let d2 := reset_transfer_id_to_edge_device d1
    let d3 := { d2 with transfer_model :=
      { d2.transfer_model with transfer_service_ids := [] } }
    let srv1 := { srv with transfer_model :=
      { srv.transfer_model with
          transfer_failed := srv.transfer_model.transfer_failed + 1 } }
    (d3, srv1)
  else
    let r := update_transfer_duration d
    if r.2 then
      let d1 := r.1
      let service_ids := d1.transfer_model.transfer_service_ids
      let services_to_assign := srv.services.filter (fun s => s.id ∈ service_ids)
      let d2 := { d1 with
        services := d1.services ++ services_to_assign.map (fun s => { s with server_id := d1.id }) }
      let srv1 := { srv with
        services := srv.services.filter (fun s => s.id ∉ service_ids) }
      let d3 := reset_transfer_state d2
      let d4 := reset_transfer_id_to_edge_device d3
      let d5 := { d4 with transfer_model :=
        { d4.transfer_model with transfer_service_ids := [] } }
      let srv2 := { srv1 with transfer_model :=
        { srv1.transfer_model with
            transfer_succeded := srv1.transfer_model.transfer_succeded + 1 } }
      (d5, srv2)
    else (r.1, srv)

/-- The body of ProactiveDevice._update_ongoing_transfers_model for one
device: first the upload slot is serviced, then the download slot, each only
while the transfer flag is set and the corresponding slot is non-zero. -/
def update_ongoing_transfers_model_device (d : EdgeDevice) (srv : Server) :
    EdgeDevice × Server :=
  let r1 :=
    if d.transfer_model.transfer ∧ d.transfer_model.transfer_to_device_id ≠ 0 then
      update_ongoing_transfers_to_server d srv
    else (d, srv)
  if r1.1.transfer_model.transfer ∧ r1.1.transfer_model.transfer_from_device_id ≠ 0 then
    update_ongoing_transfers_to_device r1.1 r1.2
  else r1

/-- Iterated ticks of the per-device transfer maintenance. -/
def transfers_model_run (n : ℕ) (x : EdgeDevice × Server) : EdgeDevice × Server :=
  (fun y => update_ongoing_transfers_model_device y.1 y.2)^[n] x

/-!
## Server-side download pass (ProactiveDevice.transfer_to_edge_device,
offloading = model)
-/

structure TransferResult where
  success : Bool
  edge_device_id : ℕ
deriving DecidableEq

/-- Accumulator of the download pass: the devices already processed (with
their mutations), the local services_to_transfer list and the results list. -/
structure TransferPassState where
  devices : List EdgeDevice
  services_to_transfer : List Service
  results : List TransferResult
deriving DecidableEq

/-- One iteration of the device loop in transfer_to_edge_device for
offloading = model.  The set of already pinned service ids is the snapshot
taken before the loop and is not refreshed inside it. -/
def transfer_to_edge_device_model_step (srv : Server) (h : Harvester)
    (min_power_required : ℚ) (loadbalancing : Bool)
    (transferring_service_ids : List ℕ) (acc : TransferPassState) (d : EdgeDevice) :
    TransferPassState :=
  if d.model_type ≠ "edge_device" ∨ d.state ≠ "on" then
    { acc with devices := acc.devices ++ [d] }
  else
    let device_slots : ℤ := d.cpu_cores - d.reserved_cpu_cores - d.services.length
    let free_slots : ℕ := if loadbalancing then (max 0 device_slots).toNat else 1
    if loadbalancing ∧ free_slots = 0 then
      { acc with devices := acc.devices ++ [d] }
    else if ¬loadbalancing ∧ d.services ≠ [] then
      { acc with devices := acc.devices ++ [d] }
    else
      let assignable_services :=
        (acc.services_to_transfer.filter (fun s => s.id ∉ transferring_service_ids)).take
          free_slots
      if assignable_services = [] then
        { acc with devices := acc.devices ++ [d] }
      else
        let r := transfer_model_to_edge_device srv d h assignable_services min_power_required
        if r.2 then
          { devices := acc.devices ++ [r.1]
            services_to_transfer :=
              assignable_services.foldl (fun l s => l.erase s) acc.services_to_transfer
            results := acc.results ++ [{ success := true, edge_device_id := r.1.id }] }
        else
          { acc with devices := acc.devices ++ [r.1] }

/-- ProactiveDevice.transfer_to_edge_device, offloading = model: collect the
services currently on the server, snapshot every pinned service id, then walk
the device list in order. -/
def transfer_to_edge_device_model (srv : Server) (all_edge_devices : List EdgeDevice)
    (h : Harvester) (all_services : List Service) (min_power_required : ℚ)
    (loadbalancing : Bool) : TransferPassState :=
  let services_to_transfer := all_services.filter (fun s => s.server_id = srv.id)
  let transferring_service_ids :=
    all_edge_devices.foldl (fun acc d => acc ++ d.transfer_model.transfer_service_ids) []
  all_edge_devices.foldl
    (transfer_to_edge_device_model_step srv h min_power_required loadbalancing
      transferring_service_ids)
    { devices := [], services_to_transfer := services_to_transfer, results := [] }

/-!
## Configuration and entry point (app/utils/config.py, app/main.py)

The embedding keeps the value checks of Config.validate in source order; the
presence and type checks of the source cannot fail here because the record
fields are statically typed.
-/

structure SimConfig where
  offloading : String
  topology : String
  strategy : String
  loadbalancing : Bool
  compute_energydata : Bool
  steps : ℤ
  min_power_threshold : ℚ
  reactive_max_services_per_device : ℤ
  oracle_max_services_per_device : ℤ
  battery_enabled : Bool
  battery_power_required : ℚ
deriving DecidableEq

/-- Config.validate: the first failing check raises; a fully valid
configuration passes. -/
def validate (c : SimConfig) : Except String Unit :=
  if c.offloading ≠ "model" ∧ c.offloading ≠ "data" then
    .error "Invalid input for [offloading]"
  else if c.topology ≠ "test" ∧ c.topology ≠ "prod" then
    .error "Invalid input for [topology]"
  else if c.strategy ≠ "reactive" ∧ c.strategy ≠ "proactive" ∧ c.strategy ≠ "oracle" then
    .error "Invalid input for [strategy]"
  else if c.steps ≤ 0 then
    .error "Invalid input for [steps]"
  else if c.min_power_threshold ≤ 0 then
    .error "Invalid input for [proactive][min_power_threshold]"
  else if c.reactive_max_services_per_device ≤ 0 then
    .error "Invalid input for [reactive][max_services_per_device]"
  else if c.oracle_max_services_per_device ≤ 0 then
    .error "Invalid input for [oracle][max_services_per_device]"
  else if c.battery_enabled ∧ c.min_power_threshold ≥ c.battery_power_required then
    .error "Invalid input for [proactive][min_power_threshold] vs battery"
  else .ok ()

/-- app/main.py main, as (success flag, number of simulation ticks run).
A ValueError from validate is caught and main returns False with no tick run.
Modelled from the spec: the run loop itself lives in the external host
framework (edge_sim_py Simulator), which is absent from the source tree; per
the spec it calls the update hook exactly once per step and stops when the
step count reaches simulation.steps, after which main returns True. -/
def simulator_main (c : SimConfig) : Bool × ℕ :=
  match validate c with
  | .error _ => (false, 0)
  | .ok _ => (true, c.steps.toNat)

/-!
## Concrete sample states used by closed theorems
-/

/-- An idle transfer record with a three-tick transfer time. -/
def tmIdle : TransferModel :=
  { transfer := false, transfer_duration := 0, transfer_time := 3
    transfer_to_device_id := 0, transfer_from_device_id := 0
    transfer_service_ids := [], transfer_failed := 0, transfer_succeded := 0 }

/-- A service hosted by the server (id 1). -/
def svcOne : Service :=
  { id := 1, server_id := 1, trained := false, actual_training_time := 0
    max_training_time := 5 }

/-- The central server holding svcOne. -/
def serverOne : Server := { id := 1, services := [svcOne], transfer_model := tmIdle }

/-- A powered, idle edge device with two free cores. -/
def devTwo : EdgeDevice :=
  { id := 2, model_type := "edge_device", state := "on", active := true
    actual_power := 20, power_source := "solar", cpu_cores := 2
    reserved_cpu_cores := 0, services := [], transfer_model := tmIdle }

/-- A second powered, idle edge device. -/
def devThree : EdgeDevice := { devTwo with id := 3 }

/-- A 1 Ah, 5 V battery at full charge with a 25 percent floor:
max capacity 5 Wh, floor 1.25 Wh. -/
def batteryFull : HarvesterBattery := HarvesterBattery.init 1 5 (95 / 100) 1 (1 / 4)

/-- The same battery drained exactly to its floor. -/
def batteryAtFloor : HarvesterBattery := { batteryFull with bsoc := fun _ => 5 / 4 }

/-- A battery whose floor (50 percent) lies above the 40 percent band, with
the slot of every device at 4.5 Wh. -/
def batteryDeepFloor : HarvesterBattery :=
  { max_capacity_wh := 10, min_bsoc := 5, efficiency := 95 / 100, bsoc := fun _ => 9 / 2 }

/-- A device mid-upload: in flight to the server, one tick elapsed of three,
no power. -/
def devUploading : EdgeDevice :=
  { devTwo with
      actual_power := 0
      transfer_model := { tmIdle with
        transfer := true, transfer_duration := 1, transfer_to_device_id := 1
        transfer_service_ids := [1] } }

/-- A device mid-download: in flight from the server, one tick elapsed of
three, no power. -/
def devDownloading : EdgeDevice :=
  { devTwo with
      actual_power := 0
      transfer_model := { tmIdle with
        transfer := true, transfer_duration := 1, transfer_from_device_id := 1
        transfer_service_ids := [1] } }

/-- The full battery with the slot of every device drained below the floor. -/
def batteryBelowFloor : HarvesterBattery := { batteryFull with bsoc := fun _ => 1 }

/-- An untrained service one training step away from its maximum. -/
def svcTrainingMid : Service :=
  { id := 1, server_id := 1, trained := false, actual_training_time := 1
    max_training_time := 2 }

/-- An untrained service whose counter has reached its maximum. -/
def svcTrainingDone : Service :=
  { id := 1, server_id := 1, trained := false, actual_training_time := 2
    max_training_time := 2 }

/-- A fully valid configuration. -/
def cfgValid : SimConfig :=
  { offloading := "model", topology := "test", strategy := "proactive"
    loadbalancing := false, compute_energydata := false, steps := 10
    min_power_threshold := 5, reactive_max_services_per_device := 3
    oracle_max_services_per_device := 3, battery_enabled := true
    battery_power_required := 20 }

/-- The valid configuration with an unknown strategy string. -/
def cfgInvalidStrategy : SimConfig := { cfgValid with strategy := "foo" }

/-- The side condition under which a battery interaction keeps the state of
charge inside its bounds: charges must harvest nonnegative power, and a
consumption must draw a nonnegative power whose converted energy does not
exceed the depth-of-discharge floor. -/
def BatteryOpValid (h : HarvesterBattery) : BatteryOp → Prop
  | .charge _ s w => 0 ≤ s ∧ 0 ≤ w
  | .consume _ p => 0 ≤ p ∧ round2 (p * 1 / 3600) ≤ h.min_bsoc

instance (h : HarvesterBattery) : (op : BatteryOp) → Decidable (BatteryOpValid h op)
  | .charge _ s w => inferInstanceAs (Decidable (0 ≤ s ∧ 0 ≤ w))
  | .consume _ p => inferInstanceAs (Decidable (0 ≤ p ∧ round2 (p * 1 / 3600) ≤ h.min_bsoc))

/-- A device in the critical state drawing one watt. -/
def devCriticalOneWatt : EdgeDevice := { devTwo with actual_power := 1, state := "critical" }

/-!
# Theorems

General lemmas first, then one theorem per specification claim (with its
counterexample and witness where applicable).
-/

theorem round_le_round_of_le {x y : ℚ} (h : x ≤ y) : round x ≤ round y := by
  rw [round_eq, round_eq]
  exact Int.floor_mono (by linarith)

theorem round2_nonneg {q : ℚ} (hq : 0 ≤ q) : 0 ≤ round2 q := by
  unfold round2
  have h0 : round (0 : ℚ) ≤ round (q * 100) := round_le_round_of_le (by positivity)
  have h1 : (0 : ℤ) ≤ round (q * 100) := by simpa using h0
  exact div_nonneg (by exact_mod_cast h1) (by norm_num)

/-- Evaluate round2 on a concrete rational: if q * 100 rounds to the integer
n, then round2 q = n / 100. -/
theorem round2_eq (q : ℚ) (n : ℤ) (h1 : (n : ℚ) ≤ q * 100 + 1 / 2)
    (h2 : q * 100 + 1 / 2 < n + 1) : round2 q = n / 100 := by
  unfold round2
  have hr : round (q * 100) = n := by
    rw [round_eq]
    exact Int.floor_eq_iff.mpr ⟨h1, h2⟩
  rw [hr]

theorem batteryAtFloor_min : batteryAtFloor.min_bsoc = 5 / 4 := by
  show round2 (round2 (1 * 5) * (1 / 4)) = 5 / 4
  rw [round2_eq (1 * 5) 500 (by norm_num) (by norm_num)]
  rw [round2_eq ((500 : ℤ) / 100 * (1 / 4)) 125 (by norm_num) (by norm_num)]
  norm_num

theorem round2_small_draw : round2 ((5 : ℚ) * 1 / 3600) = 0 := by
  rw [round2_eq (5 * 1 / 3600) 0 (by norm_num) (by norm_num)]
  norm_num

/-- C2 counterexample: a battery exactly at its floor (1.25 Wh), asked for a
positive 5 W draw, returns true and its state of charge does not decrease,
because the converted energy round(5 / 3600, 2) is 0.00 Wh. -/
theorem consume_energy_at_floor_counterexample :
    batteryAtFloor.bsoc 2 = batteryAtFloor.min_bsoc ∧
    (0 : ℚ) < 5 ∧
    (consume_energy batteryAtFloor 2 5).2 = true ∧
    (consume_energy batteryAtFloor 2 5).1.bsoc 2 = batteryAtFloor.bsoc 2 := by
  have hb : batteryAtFloor.bsoc 2 = 5 / 4 := rfl
  have hge : batteryAtFloor.bsoc 2 ≥ batteryAtFloor.min_bsoc := by
    rw [hb, batteryAtFloor_min]
  refine ⟨by rw [hb, batteryAtFloor_min], by norm_num, ?_, ?_⟩
  · unfold consume_energy
    rw [if_pos hge]
    dsimp only
    rw [if_neg (by rw [round2_small_draw, hb, batteryAtFloor_min]; norm_num)]
  · unfold consume_energy
    rw [if_pos hge]
    dsimp only
    rw [if_neg (by rw [round2_small_draw, hb, batteryAtFloor_min]; norm_num)]
    rw [round2_small_draw]
    simp

/-- C2 (amended): when the pre-call state of charge is at least the floor,
consume_energy subtracts the converted energy round(p / 3600, 2) and returns
true exactly when the post-subtraction value is still at least the floor; a
battery exactly at the floor returns false, with its state of charge
decreasing, precisely for draws whose converted energy is positive (draws
whose energy rounds to zero leave the charge unchanged and return true);
when the pre-call value is below the floor it returns false without
mutating. -/
theorem consume_energy_spec (h : HarvesterBattery) (i : ℕ) (p : ℚ) :
    (h.bsoc i ≥ h.min_bsoc →
      (consume_energy h i p).1.bsoc i = h.bsoc i - round2 (p * 1 / 3600) ∧
      ((consume_energy h i p).2 = true ↔
        h.bsoc i - round2 (p * 1 / 3600) ≥ h.min_bsoc)) ∧
    (h.bsoc i = h.min_bsoc → 0 < round2 (p * 1 / 3600) →
      (consume_energy h i p).2 = false ∧
      (consume_energy h i p).1.bsoc i < h.bsoc i) ∧
    (h.bsoc i < h.min_bsoc → consume_energy h i p = (h, false)) := by
  refine ⟨?_, ?_, ?_⟩
  · intro hge
    unfold consume_energy
    rw [if_pos hge]
    dsimp only
    constructor
    · split <;> (dsimp only; rw [if_pos rfl])
    · split
      · next hlt => exact iff_of_false (by simp) (not_le.mpr hlt)
      · next hnlt => exact iff_of_true rfl (not_lt.mp hnlt)
  · intro heq hpos
    have hge : h.bsoc i ≥ h.min_bsoc := le_of_eq heq.symm
    unfold consume_energy
    rw [if_pos hge]
    dsimp only
    rw [if_pos (by rw [heq]; linarith)]
    refine ⟨rfl, ?_⟩
    dsimp only
    rw [if_pos rfl]
    linarith
  · intro hlt
    unfold consume_energy
    rw [if_neg (not_le.mpr hlt)]

theorem consume_energy_spec_witness :
    ((consume_energy batteryAtFloor 2 36).2 = false ∧
      (consume_energy batteryAtFloor 2 36).1.bsoc 2 < batteryAtFloor.bsoc 2) ∧
    consume_energy batteryBelowFloor 2 20 = (batteryBelowFloor, false) := by
  constructor
  · exact (consume_energy_spec batteryAtFloor 2 36).2.1
      (by rw [show batteryAtFloor.bsoc 2 = 5 / 4 from rfl, batteryAtFloor_min])
      (by rw [round2_eq (36 * 1 / 3600) 1 (by norm_num) (by norm_num)]; norm_num)
  · exact (consume_energy_spec batteryBelowFloor 2 20).2.2
      (by rw [show batteryBelowFloor.bsoc 2 = 1 from rfl,
          show batteryBelowFloor.min_bsoc = batteryAtFloor.min_bsoc from rfl,
          batteryAtFloor_min]; norm_num)

theorem batteryFull_max : batteryFull.max_capacity_wh = 5 := by
  show round2 (1 * 5) = 5
  rw [round2_eq (1 * 5) 500 (by norm_num) (by norm_num)]
  norm_num

theorem batteryFull_bsoc (i : ℕ) : batteryFull.bsoc i = 5 := by
  show round2 (batteryFull.max_capacity_wh * 1) = 5
  rw [batteryFull_max]
  rw [round2_eq ((5 : ℚ) * 1) 500 (by norm_num) (by norm_num)]
  norm_num

theorem batteryFull_min : batteryFull.min_bsoc = 5 / 4 := batteryAtFloor_min

/-- C3 counterexample: from a fully charged, perfectly valid battery
(5 Wh stored, floor 1.25 Wh), a single consume_energy call drawing 36000 W
(10 Wh) leaves the state of charge at -5 Wh, below zero. -/
theorem run_battery_negative_soc_counterexample :
    0 ≤ batteryFull.min_bsoc ∧
    batteryFull.bsoc 1 = batteryFull.max_capacity_wh ∧
    (run_battery batteryFull [BatteryOp.consume 1 36000]).bsoc 1 < 0 := by
  have h36 : round2 ((36000 : ℚ) * 1 / 3600) = 10 := by
    rw [round2_eq (36000 * 1 / 3600) 1000 (by norm_num) (by norm_num)]
    norm_num
  refine ⟨by rw [batteryFull_min]; norm_num,
    by rw [batteryFull_bsoc, batteryFull_max], ?_⟩
  have hcons : (run_battery batteryFull [BatteryOp.consume 1 36000]).bsoc 1 =
      batteryFull.bsoc 1 - round2 ((36000 : ℚ) * 1 / 3600) := by
    show (consume_energy batteryFull 1 36000).1.bsoc 1 = _
    unfold consume_energy
    rw [if_pos (by rw [batteryFull_bsoc, batteryFull_min]; norm_num)]
    dsimp only
    split <;> (dsimp only; rw [if_pos rfl])
  rw [hcons, batteryFull_bsoc, h36]
  norm_num

theorem charge_battery_const (h : HarvesterBattery) (j : ℕ) (s w : ℚ) :
    (charge_battery h j s w).min_bsoc = h.min_bsoc ∧
    (charge_battery h j s w).max_capacity_wh = h.max_capacity_wh ∧
    (charge_battery h j s w).efficiency = h.efficiency :=
  ⟨rfl, rfl, rfl⟩

theorem consume_energy_const (h : HarvesterBattery) (j : ℕ) (p : ℚ) :
    (consume_energy h j p).1.min_bsoc = h.min_bsoc ∧
    (consume_energy h j p).1.max_capacity_wh = h.max_capacity_wh ∧
    (consume_energy h j p).1.efficiency = h.efficiency := by
  unfold consume_energy
  dsimp only
  split
  · split <;> exact ⟨rfl, rfl, rfl⟩
  · exact ⟨rfl, rfl, rfl⟩

theorem charge_battery_bounds (h : HarvesterBattery) (j i : ℕ) (s w : ℚ)
    (hs : 0 ≤ s) (_hw : 0 ≤ w) (heff : 0 ≤ h.efficiency)
    (hmax0 : 0 ≤ h.max_capacity_wh)
    (hinv : 0 ≤ h.bsoc i ∧ h.bsoc i ≤ h.max_capacity_wh) :
    0 ≤ (charge_battery h j s w).bsoc i ∧
      (charge_battery h j s w).bsoc i ≤ h.max_capacity_wh := by
  have hharv : 0 ≤ max (round2 s) (round2 w) :=
    le_trans (round2_nonneg hs) (le_max_left _ _)
  have he1 : 0 ≤ round2 (max (round2 s) (round2 w) * 1 / 3600) :=
    round2_nonneg (by positivity)
  have he2 : 0 ≤ round2 (round2 (max (round2 s) (round2 w) * 1 / 3600) * h.efficiency) :=
    round2_nonneg (mul_nonneg he1 heff)
  unfold charge_battery
  dsimp only
  by_cases hij : i = j
  · subst hij
    rw [if_pos rfl]
    exact ⟨le_min (by linarith [hinv.1]) hmax0, min_le_right _ _⟩
  · rw [if_neg hij]
    exact hinv

theorem consume_energy_bounds (h : HarvesterBattery) (j i : ℕ) (p : ℚ)
    (hp : 0 ≤ p) (hdraw : round2 (p * 1 / 3600) ≤ h.min_bsoc)
    (hinv : 0 ≤ h.bsoc i ∧ h.bsoc i ≤ h.max_capacity_wh) :
    0 ≤ (consume_energy h j p).1.bsoc i ∧
      (consume_energy h j p).1.bsoc i ≤ h.max_capacity_wh := by
  have he : 0 ≤ round2 (p * 1 / 3600) := round2_nonneg (by positivity)
  unfold consume_energy
  dsimp only
  split
  · next hge =>
      split <;>
      · dsimp only
        by_cases hij : i = j
        · subst hij
          rw [if_pos rfl]
          exact ⟨by linarith, by linarith [hinv.2]⟩
        · rw [if_neg hij]
          exact hinv
  · exact hinv

theorem BatteryOpValid_of_eq_min {h h2 : HarvesterBattery}
    (hm : h2.min_bsoc = h.min_bsoc) : ∀ op, BatteryOpValid h op → BatteryOpValid h2 op
  | .charge _ _ _, hv => hv
  | .consume _ _, hv => ⟨hv.1, by rw [hm]; exact hv.2⟩

/-- C3 (amended): the battery invariant 0 ≤ soc ≤ max_capacity_wh holds after
any interleaving of charge_battery and consume_energy calls from a valid
initial charge, provided the floor is nonnegative and at most the capacity,
the efficiency is nonnegative, every charge has nonnegative readings and
every consumption draws a nonnegative power whose converted energy
round(p / 3600, 2) is at most the floor.  An unbounded draw can push the
state of charge below zero, as the counterexample shows. -/
theorem run_battery_invariant (ops : List BatteryOp) (h : HarvesterBattery) (i : ℕ)
    (hmin0 : 0 ≤ h.min_bsoc) (hminmax : h.min_bsoc ≤ h.max_capacity_wh)
    (heff : 0 ≤ h.efficiency)
    (hinv : 0 ≤ h.bsoc i ∧ h.bsoc i ≤ h.max_capacity_wh)
    (hops : ∀ op ∈ ops, BatteryOpValid h op) :
    0 ≤ (run_battery h ops).bsoc i ∧
      (run_battery h ops).bsoc i ≤ h.max_capacity_wh := by
  induction ops generalizing h with
  | nil => exact hinv
  | cons op rest ih =>
    have hv := hops op (List.mem_cons_self _ _)
    have hrest : ∀ o ∈ rest, BatteryOpValid h o :=
      fun o ho => hops o (List.mem_cons_of_mem _ ho)
    cases op with
    | charge j s w =>
      have hstep := charge_battery_bounds h j i s w hv.1 hv.2 heff
        (le_trans hmin0 hminmax) hinv
      have hconst := charge_battery_const h j s w
      have hrun : run_battery h (BatteryOp.charge j s w :: rest) =
          run_battery (charge_battery h j s w) rest := rfl
      rw [hrun]
      have hres := ih (charge_battery h j s w)
        (by rw [hconst.1]; exact hmin0)
        (by rw [hconst.1, hconst.2.1]; exact hminmax)
        (by rw [hconst.2.2]; exact heff)
        (by rw [hconst.2.1]; exact hstep)
        (fun o ho => BatteryOpValid_of_eq_min hconst.1 o (hrest o ho))
      rw [hconst.2.1] at hres
      exact hres
    | consume j p =>
      have hstep := consume_energy_bounds h j i p hv.1 hv.2 hinv
      have hconst := consume_energy_const h j p
      have hrun : run_battery h (BatteryOp.consume j p :: rest) =
          run_battery (consume_energy h j p).1 rest := rfl
      rw [hrun]
      have hres := ih (consume_energy h j p).1
        (by rw [hconst.1]; exact hmin0)
        (by rw [hconst.1, hconst.2.1]; exact hminmax)
        (by rw [hconst.2.2]; exact heff)
        (by rw [hconst.2.1]; exact hstep)
        (fun o ho => BatteryOpValid_of_eq_min hconst.1 o (hrest o ho))
      rw [hconst.2.1] at hres
      exact hres

theorem run_battery_invariant_witness :
    0 ≤ (run_battery batteryFull
        [BatteryOp.charge 1 100 50, BatteryOp.consume 1 20]).bsoc 1 ∧
      (run_battery batteryFull
        [BatteryOp.charge 1 100 50, BatteryOp.consume 1 20]).bsoc 1 ≤
        batteryFull.max_capacity_wh := by
  apply run_battery_invariant
  · rw [batteryFull_min]; norm_num
  · rw [batteryFull_min, batteryFull_max]; norm_num
  · show (0 : ℚ) ≤ 95 / 100; norm_num
  · rw [batteryFull_bsoc, batteryFull_max]; norm_num
  · intro op hop
    rcases List.mem_cons.mp hop with h1 | h2
    · subst h1; exact ⟨by norm_num, by norm_num⟩
    · rcases List.mem_cons.mp h2 with h3 | h4
      · subst h3
        refine ⟨by norm_num, ?_⟩
        rw [round2_eq ((20 : ℚ) * 1 / 3600) 1 (by norm_num) (by norm_num),
          batteryFull_min]
        norm_num
      · exact absurd h4 (List.not_mem_nil _)

/-- C5 counterexample: an untrained service with counter 1 and maximum 2.
The training step increments the counter to the maximum, yet the service is
not marked trained on that tick. -/
theorem train_model_increment_to_max_counterexample :
    svcTrainingMid.actual_training_time + 1 = svcTrainingMid.max_training_time ∧
    (train_model svcTrainingMid).actual_training_time =
      svcTrainingMid.max_training_time ∧
    (train_model svcTrainingMid).trained = false := by
  refine ⟨rfl, rfl, rfl⟩

/-- C5 (amended): the tick whose training step increments the counter to
max_training_time leaves trained = false; trained is set to true, with the
counter reset to 0, on the following tick, the one that starts with the
counter already equal to max_training_time. -/
theorem train_model_spec (s : Service) (hs : s.trained = false) :
    (s.actual_training_time + 1 = s.max_training_time →
      (train_model s).trained = false ∧
      (train_model s).actual_training_time = s.max_training_time) ∧
    (s.actual_training_time = s.max_training_time →
      (train_model s).trained = true ∧
      (train_model s).actual_training_time = 0) := by
  constructor
  · intro hstep
    have hne : s.actual_training_time ≠ s.max_training_time := by omega
    unfold train_model
    rw [hs]
    simp only [Bool.false_eq_true, if_false, if_neg hne]
    exact ⟨trivial, hstep⟩
  · intro heq
    unfold train_model
    rw [hs]
    simp only [Bool.false_eq_true, if_false, if_pos heq]
    exact ⟨trivial, trivial⟩

theorem train_model_spec_witness :
    ((train_model svcTrainingMid).trained = false ∧
      (train_model svcTrainingMid).actual_training_time =
        svcTrainingMid.max_training_time) ∧
    ((train_model svcTrainingDone).trained = true ∧
      (train_model svcTrainingDone).actual_training_time = 0) :=
  ⟨(train_model_spec svcTrainingMid rfl).1 rfl,
   (train_model_spec svcTrainingDone rfl).2 rfl⟩

/-- C6: the lifecycle update without a battery sends power above the
threshold to (on, active), positive power at or below the threshold to
(critical, active), and zero power to (off, inactive). -/
theorem modify_state_without_battery_spec (d : EdgeDevice) (m : ℚ) :
    (d.actual_power > m →
      modify_state_without_battery d m = { d with state := "on", active := true }) ∧
    (0 < d.actual_power ∧ d.actual_power ≤ m →
      modify_state_without_battery d m =
        { d with state := "critical", active := true }) ∧
    (0 ≤ m → d.actual_power = 0 →
      modify_state_without_battery d m =
        { d with state := "off", active := false }) := by
  refine ⟨?_, ?_, ?_⟩
  · intro hgt
    unfold modify_state_without_battery
    rw [if_pos hgt]
  · intro hmid
    unfold modify_state_without_battery
    rw [if_neg (not_lt.mpr hmid.2), if_pos hmid]
  · intro hm hzero
    unfold modify_state_without_battery
    rw [if_neg (by rw [hzero]; exact not_lt.mpr hm),
      if_neg (by rw [hzero]; rintro ⟨h1, _⟩; exact lt_irrefl 0 h1)]

theorem modify_state_without_battery_spec_witness :
    modify_state_without_battery { devTwo with actual_power := 7 } 5 =
      { { devTwo with actual_power := 7 } with state := "on", active := true } ∧
    modify_state_without_battery { devTwo with actual_power := 3 } 5 =
      { { devTwo with actual_power := 3 } with state := "critical", active := true } ∧
    modify_state_without_battery { devTwo with actual_power := 0 } 5 =
      { { devTwo with actual_power := 0 } with state := "off", active := false } :=
  ⟨(modify_state_without_battery_spec { devTwo with actual_power := 7 } 5).1
      (by norm_num),
   (modify_state_without_battery_spec { devTwo with actual_power := 3 } 5).2.1
      (by norm_num),
   (modify_state_without_battery_spec { devTwo with actual_power := 0 } 5).2.2
      (by norm_num) rfl⟩

/-- C7: the battery-backed power update charges first, then consumes the
required power from the charged battery; afterwards the device power is the
required power exactly when the consumption succeeded and 0.00 otherwise, the
power source is battery in both cases, and the returned battery state is the
one left by consume after charge. -/
theorem modify_power_with_battery_spec (d : EdgeDevice) (h : HarvesterBattery)
    (solar wind required_power : ℚ) :
    (modify_power_with_battery d h solar wind required_power).2 =
      (consume_energy (charge_battery h d.id solar wind) d.id required_power).1 ∧
    (modify_power_with_battery d h solar wind required_power).1.power_source =
      "battery" ∧
    (modify_power_with_battery d h solar wind required_power).1.actual_power =
      (if (consume_energy (charge_battery h d.id solar wind) d.id required_power).2
        then required_power else 0) :=
  ⟨rfl, rfl, rfl⟩

/-- C9 counterexample: with a depth-of-discharge floor above the 40 percent
band (floor 5 Wh on a 10 Wh battery), a powered device whose reported state
of charge (4.5 Wh) is strictly below the floor still matches the first
branch, and its state changes from critical to on. -/
theorem modify_state_with_battery_counterexample :
    devCriticalOneWatt.actual_power > 0 ∧
    get_bsoc batteryDeepFloor devCriticalOneWatt.id <
      get_min_bsoc batteryDeepFloor ∧
    devCriticalOneWatt.state = "critical" ∧
    (modify_state_with_battery devCriticalOneWatt batteryDeepFloor).state = "on" := by
  have hp : devCriticalOneWatt.actual_power > 0 := by
    show (0 : ℚ) < 1; norm_num
  have hb : get_bsoc batteryDeepFloor devCriticalOneWatt.id = 9 / 2 := by
    show round2 (9 / 2) = 9 / 2
    rw [round2_eq (9 / 2) 450 (by norm_num) (by norm_num)]; norm_num
  have hmin : get_min_bsoc batteryDeepFloor = 5 := by
    show round2 5 = 5
    rw [round2_eq 5 500 (by norm_num) (by norm_num)]; norm_num
  have hmax : get_max_capacity batteryDeepFloor = 10 := by
    show round2 10 = 10
    rw [round2_eq 10 1000 (by norm_num) (by norm_num)]; norm_num
  refine ⟨hp, by rw [hb, hmin]; norm_num, rfl, ?_⟩
  unfold modify_state_with_battery
  rw [if_pos hp, if_pos (by rw [hb, hmax]; norm_num)]

/-- C9 (amended): provided the floor does not exceed the 40 percent band
(depth_of_discharge at most 0.4, true of the default 0.25), a powered device
whose reported state of charge is strictly below the floor matches no branch
of the battery-variant lifecycle update, which returns the device record
unchanged. -/
theorem modify_state_with_battery_frame (d : EdgeDevice) (h : HarvesterBattery)
    (hp : d.actual_power > 0) (hlow : get_bsoc h d.id < get_min_bsoc h)
    (hband : get_min_bsoc h ≤ get_max_capacity h * (2 / 5)) :
    modify_state_with_battery d h = d := by
  unfold modify_state_with_battery
  rw [if_pos hp, if_neg (not_le.mpr (lt_of_lt_of_le hlow hband)),
    if_neg (by rintro ⟨h1, _⟩; linarith)]

theorem modify_state_with_battery_frame_witness :
    modify_state_with_battery devCriticalOneWatt batteryBelowFloor =
      devCriticalOneWatt := by
  have h1 : get_bsoc batteryBelowFloor devCriticalOneWatt.id = 1 := by
    show round2 1 = 1
    rw [round2_eq 1 100 (by norm_num) (by norm_num)]; norm_num
  have h2 : get_min_bsoc batteryBelowFloor = 5 / 4 := by
    show round2 batteryFull.min_bsoc = 5 / 4
    rw [batteryFull_min]
    rw [round2_eq ((5 : ℚ) / 4) 125 (by norm_num) (by norm_num)]; norm_num
  have h3 : get_max_capacity batteryBelowFloor = 5 := by
    show round2 batteryFull.max_capacity_wh = 5
    rw [batteryFull_max]
    rw [round2_eq (5 : ℚ) 500 (by norm_num) (by norm_num)]; norm_num
  apply modify_state_with_battery_frame
  · show (0 : ℚ) < 1; norm_num
  · rw [h1, h2]; norm_num
  · rw [h2, h3]; norm_num

theorem update_tick_idle (d : EdgeDevice) (srv : Server)
    (hd : d.transfer_model.transfer = false) :
    update_ongoing_transfers_model_device d srv = (d, srv) := by
  simp [update_ongoing_transfers_model_device, hd]

theorem transfers_model_run_idle (n : ℕ) (x : EdgeDevice × Server)
    (hx : x.1.transfer_model.transfer = false) :
    transfers_model_run n x = x := by
  induction n with
  | zero => rfl
  | succ m ih =>
    unfold transfers_model_run at ih ⊢
    rw [Function.iterate_succ_apply, update_tick_idle x.1 x.2 hx]
    exact ih

theorem fail_upload_tick (d : EdgeDevice) (srv : Server)
    (hin : d.transfer_model.transfer = true)
    (hdur : d.transfer_model.transfer_duration < d.transfer_model.transfer_time)
    (hpow : d.actual_power = 0)
    (hto : d.transfer_model.transfer_to_device_id ≠ 0) :
    update_ongoing_transfers_model_device d srv =
      ({ d with transfer_model :=
          { d.transfer_model with
              transfer := false, transfer_duration := 0
              transfer_to_device_id := 0, transfer_service_ids := []
              transfer_failed := d.transfer_model.transfer_failed + 1 } }, srv) := by
  have hfail : transfer_failed d = true := by
    unfold transfer_failed
    rw [if_neg (by omega), if_pos hpow]
  have hserver : update_ongoing_transfers_to_server d srv =
      ({ d with transfer_model :=
          { d.transfer_model with
              transfer := false, transfer_duration := 0
              transfer_to_device_id := 0, transfer_service_ids := []
              transfer_failed := d.transfer_model.transfer_failed + 1 } }, srv) := by
    unfold update_ongoing_transfers_to_server
    rw [if_pos hfail]
    rfl
  have hr1 : (if d.transfer_model.transfer = true ∧
        d.transfer_model.transfer_to_device_id ≠ 0
      then update_ongoing_transfers_to_server d srv else (d, srv)) =
      update_ongoing_transfers_to_server d srv := if_pos ⟨hin, hto⟩
  unfold update_ongoing_transfers_model_device
  dsimp only
  rw [hr1, hserver]
  rw [if_neg (by simp)]

theorem fail_download_tick (d : EdgeDevice) (srv : Server)
    (hin : d.transfer_model.transfer = true)
    (hdur : d.transfer_model.transfer_duration < d.transfer_model.transfer_time)
    (hpow : d.actual_power = 0)
    (hfrom : d.transfer_model.transfer_from_device_id ≠ 0)
    (hto : d.transfer_model.transfer_to_device_id = 0) :
    update_ongoing_transfers_model_device d srv =
      ({ d with transfer_model :=
          { d.transfer_model with
              transfer := false, transfer_duration := 0
              transfer_from_device_id := 0, transfer_service_ids := [] } },
       { srv with transfer_model :=
          { srv.transfer_model with
              transfer_failed := srv.transfer_model.transfer_failed + 1 } }) := by
  have hfail : transfer_failed d = true := by
    unfold transfer_failed
    rw [if_neg (by omega), if_pos hpow]
  have hdevice : update_ongoing_transfers_to_device d srv =
      ({ d with transfer_model :=
          { d.transfer_model with
              transfer := false, transfer_duration := 0
              transfer_from_device_id := 0, transfer_service_ids := [] } },
       { srv with transfer_model :=
          { srv.transfer_model with
              transfer_failed := srv.transfer_model.transfer_failed + 1 } }) := by
    unfold update_ongoing_transfers_to_device
    rw [if_pos hfail]
    rfl
  have hr1 : (if d.transfer_model.transfer = true ∧
        d.transfer_model.transfer_to_device_id ≠ 0
      then update_ongoing_transfers_to_server d srv else (d, srv)) = (d, srv) :=
    if_neg (by simp [hto])
  unfold update_ongoing_transfers_model_device
  dsimp only
  rw [hr1]
  dsimp only
  rw [if_pos ⟨hin, hfrom⟩, hdevice]

/-- C4: a device with an in-flight transfer whose duration has not yet
reached the transfer time and whose power is 0 at the transfer-update step
fails on that tick: the corresponding side of the transfer (the device for an
upload, the server for a download) has its failed counter incremented by
exactly one, the flag, duration, pinned ids and direction slot reset, and
over any number of further zero-power ticks the counter never moves again and
the transfer never completes (succeded counters and service rosters are
untouched). -/
theorem transfer_power_loss_fails (d : EdgeDevice) (srv : Server)
    (hin : d.transfer_model.transfer = true)
    (hdur : d.transfer_model.transfer_duration < d.transfer_model.transfer_time)
    (hpow : d.actual_power = 0) :
    (d.transfer_model.transfer_to_device_id ≠ 0 →
      ∀ n, 1 ≤ n →
        (transfers_model_run n (d, srv)).1.transfer_model.transfer_failed =
          d.transfer_model.transfer_failed + 1 ∧
        (transfers_model_run n (d, srv)).1.transfer_model.transfer = false ∧
        (transfers_model_run n (d, srv)).1.transfer_model.transfer_duration = 0 ∧
        (transfers_model_run n (d, srv)).1.transfer_model.transfer_service_ids = [] ∧
        (transfers_model_run n (d, srv)).1.transfer_model.transfer_to_device_id = 0 ∧
        (transfers_model_run n (d, srv)).1.transfer_model.transfer_succeded =
          d.transfer_model.transfer_succeded ∧
        (transfers_model_run n (d, srv)).2 = srv) ∧
    (d.transfer_model.transfer_from_device_id ≠ 0 →
      d.transfer_model.transfer_to_device_id = 0 →
      ∀ n, 1 ≤ n →
        (transfers_model_run n (d, srv)).2.transfer_model.transfer_failed =
          srv.transfer_model.transfer_failed + 1 ∧
        (transfers_model_run n (d, srv)).1.transfer_model.transfer = false ∧
        (transfers_model_run n (d, srv)).1.transfer_model.transfer_duration = 0 ∧
        (transfers_model_run n (d, srv)).1.transfer_model.transfer_service_ids = [] ∧
        (transfers_model_run n (d, srv)).1.transfer_model.transfer_from_device_id = 0 ∧
        (transfers_model_run n (d, srv)).2.transfer_model.transfer_succeded =
          srv.transfer_model.transfer_succeded ∧
        (transfers_model_run n (d, srv)).2.services = srv.services ∧
        (transfers_model_run n (d, srv)).1.services = d.services) := by
  constructor
  · intro hto n hn
    obtain ⟨m, rfl⟩ : ∃ m, n = m + 1 := ⟨n - 1, by omega⟩
    have hrun : transfers_model_run (m + 1) (d, srv) =
        ({ d with transfer_model :=
            { d.transfer_model with
                transfer := false, transfer_duration := 0
                transfer_to_device_id := 0, transfer_service_ids := []
                transfer_failed := d.transfer_model.transfer_failed + 1 } }, srv) := by
      unfold transfers_model_run
      rw [Function.iterate_succ_apply]
      dsimp only
      rw [fail_upload_tick d srv hin hdur hpow hto]
      exact transfers_model_run_idle m _ rfl
    rw [hrun]
    exact ⟨rfl, rfl, rfl, rfl, rfl, rfl, rfl⟩
  · intro hfrom hto n hn
    obtain ⟨m, rfl⟩ : ∃ m, n = m + 1 := ⟨n - 1, by omega⟩
    have hrun : transfers_model_run (m + 1) (d, srv) =
        ({ d with transfer_model :=
            { d.transfer_model with
                transfer := false, transfer_duration := 0
                transfer_from_device_id := 0, transfer_service_ids := [] } },
         { srv with transfer_model :=
            { srv.transfer_model with
                transfer_failed := srv.transfer_model.transfer_failed + 1 } }) := by
      unfold transfers_model_run
      rw [Function.iterate_succ_apply]
      dsimp only
      rw [fail_download_tick d srv hin hdur hpow hfrom hto]
      exact transfers_model_run_idle m _ rfl
    rw [hrun]
    exact ⟨rfl, rfl, rfl, rfl, rfl, rfl, rfl, rfl⟩

theorem transfer_power_loss_fails_witness :
    ((transfers_model_run 2 (devUploading, serverOne)).1.transfer_model.transfer_failed =
        devUploading.transfer_model.transfer_failed + 1 ∧
      (transfers_model_run 2 (devUploading, serverOne)).1.transfer_model.transfer =
        false ∧
      (transfers_model_run 2
          (devUploading, serverOne)).1.transfer_model.transfer_succeded =
        devUploading.transfer_model.transfer_succeded) ∧
    (transfers_model_run 2
        (devDownloading, serverOne)).2.transfer_model.transfer_failed =
      serverOne.transfer_model.transfer_failed + 1 := by
  have hu := (transfer_power_loss_fails devUploading serverOne rfl (by decide) rfl).1
    (by decide) 2 (by norm_num)
  have hd := (transfer_power_loss_fails devDownloading serverOne rfl (by decide) rfl).2
    (by decide) rfl 2 (by norm_num)
  exact ⟨⟨hu.1, hu.2.1, hu.2.2.2.2.2.1⟩, hd.1⟩

theorem transfer_model_to_server_false (d : EdgeDevice) (srv : Server)
    (mp : ℚ) (h : Harvester) : (transfer_model_to_server d srv mp h).2 = false := by
  unfold transfer_model_to_server
  split
  · rfl
  · dsimp only
    split <;> rfl

theorem transfer_model_to_edge_device_false (srv : Server) (d : EdgeDevice)
    (h : Harvester) (ss : List Service) (mp : ℚ) :
    (transfer_model_to_edge_device srv d h ss mp).2 = false := by
  unfold transfer_model_to_edge_device
  split
  · rfl
  · dsimp only
    split <;> rfl

theorem transfer_step_preserves (srv : Server) (h : Harvester) (mp : ℚ) (lb : Bool)
    (tids : List ℕ) (acc : TransferPassState) (d : EdgeDevice) :
    (transfer_to_edge_device_model_step srv h mp lb tids acc d).services_to_transfer =
      acc.services_to_transfer ∧
    (transfer_to_edge_device_model_step srv h mp lb tids acc d).results =
      acc.results := by
  unfold transfer_to_edge_device_model_step
  dsimp only
  rw [transfer_model_to_edge_device_false srv d h _ mp]
  simp only [Bool.false_eq_true, if_false]
  repeat' split
  all_goals exact ⟨rfl, rfl⟩

theorem transfer_fold_preserves (srv : Server) (h : Harvester) (mp : ℚ) (lb : Bool)
    (tids : List ℕ) (devs : List EdgeDevice) :
    ∀ acc : TransferPassState,
      (devs.foldl (transfer_to_edge_device_model_step srv h mp lb tids)
          acc).services_to_transfer = acc.services_to_transfer ∧
      (devs.foldl (transfer_to_edge_device_model_step srv h mp lb tids)
          acc).results = acc.results := by
  induction devs with
  | nil => intro acc; exact ⟨rfl, rfl⟩
  | cons d rest ih =>
    intro acc
    rw [List.foldl_cons]
    have hstep := transfer_step_preserves srv h mp lb tids acc d
    have hrest := ih (transfer_to_edge_device_model_step srv h mp lb tids acc d)
    exact ⟨hrest.1.trans hstep.1, hrest.2.trans hstep.2⟩

/-- C10: both transfer initiators return false on every execution path,
including the paths on which they do start a transfer; consequently the
server-side download pass never appends a success entry to its results list
and never removes an assigned service from its local services_to_transfer
list within the tick. -/
theorem transfer_initiators_return_false (d : EdgeDevice) (srv : Server) (mp : ℚ)
    (h : Harvester) (ss : List Service) (devs : List EdgeDevice)
    (alls : List Service) (lb : Bool) :
    (transfer_model_to_server d srv mp h).2 = false ∧
    (transfer_model_to_edge_device srv d h ss mp).2 = false ∧
    (transfer_to_edge_device_model srv devs h alls mp lb).results = [] ∧
    (transfer_to_edge_device_model srv devs h alls mp lb).services_to_transfer =
      alls.filter (fun s => s.server_id = srv.id) := by
  refine ⟨transfer_model_to_server_false d srv mp h,
    transfer_model_to_edge_device_false srv d h ss mp, ?_, ?_⟩
  · exact (transfer_fold_preserves srv h mp lb
      (devs.foldl (fun acc dev => acc ++ dev.transfer_model.transfer_service_ids) [])
      devs
      { devices := [], services_to_transfer :=
          alls.filter (fun s => s.server_id = srv.id), results := [] }).2
  · exact (transfer_fold_preserves srv h mp lb
      (devs.foldl (fun acc dev => acc ++ dev.transfer_model.transfer_service_ids) [])
      devs
      { devices := [], services_to_transfer :=
          alls.filter (fun s => s.server_id = srv.id), results := [] }).1

/-- C1: in one download pass (offloading = model) over two powered, idle,
service-free edge devices with the server holding a single service, both
devices start a download in the same tick and both pin service id 1: their
pending service-id sets are not disjoint.  The snapshot of pinned ids taken
before the loop is never refreshed, and because the initiator returns false
(contradicting its own documented return value) the branch that would remove
assigned services from services_to_transfer is unreachable. -/
theorem download_pass_double_assignment :
    ((transfer_to_edge_device_model serverOne [devTwo, devThree] Harvester.plain
        [svcOne] 10 false).devices.map fun d => d.id) = [2, 3] ∧
    ((transfer_to_edge_device_model serverOne [devTwo, devThree] Harvester.plain
        [svcOne] 10 false).devices.map fun d =>
          d.transfer_model.transfer_service_ids) = [[1], [1]] ∧
    ((transfer_to_edge_device_model serverOne [devTwo, devThree] Harvester.plain
        [svcOne] 10 false).devices.map fun d => d.transfer_model.transfer) =
      [true, true] := by
  refine ⟨by decide, by decide, by decide⟩

/-- C8: a strategy string outside reactive, proactive, oracle makes validate
raise, so the program reports failure with zero simulation ticks run;
conversely any configuration that validates runs all configured steps and
reports success. -/
theorem simulator_main_spec (c : SimConfig) :
    (c.strategy ≠ "reactive" → c.strategy ≠ "proactive" → c.strategy ≠ "oracle" →
      simulator_main c = (false, 0)) ∧
    (validate c = Except.ok () → simulator_main c = (true, c.steps.toNat)) := by
  constructor
  · intro h1 h2 h3
    have hne : ∀ u : Unit, validate c ≠ Except.ok u := by
      intro u hok
      unfold validate at hok
      split_ifs at hok
      simp_all
    rcases hval : validate c with e | u
    · unfold simulator_main
      rw [hval]
    · exact absurd hval (hne u)
  · intro hok
    unfold simulator_main
    rw [hok]

theorem simulator_main_spec_witness :
    simulator_main cfgInvalidStrategy = (false, 0) ∧
    simulator_main cfgValid = (true, cfgValid.steps.toNat) := by
  constructor
  · exact (simulator_main_spec cfgInvalidStrategy).1 (by decide) (by decide) (by decide)
  · exact (simulator_main_spec cfgValid).2 rfl
